import Mathlib

/-!
Shallow embedding of the `rust-vk-scrapper` core.

The database state (tables `POST` and `POST_INFO`) is modelled as lists of
rows; timestamps are integers (seconds).  Each query function from
`src/db_commands.rs` becomes a pure Lean function over this state, taking
the current time `now` explicitly where the SQL uses `CURRENT_TIMESTAMP`.
Fallible external effects (the VK fetch, cron-job construction, scheduler
registration, startup stages) are passed in as `Except`-valued oracles, so
the control flow of `src/tasks.rs`, `src/endpoints.rs` and `src/main.rs`
can be reproduced faithfully.
-/

/-- One row of the `POST` table (an observation window). -/
structure Post where
  id : Int
  vk_id : String
  dt_parse_begin : Int
  dt_parse_end : Int
deriving DecidableEq

/-- One row of the `POST_INFO` table (a metrics sample); counters are the
`i32` columns, modelled as `Int`. -/
structure PostInfo where
  post_id : Int
  likes_count : Int
  comments_count : Int
  reposts_count : Int
  views_count : Int
  info_time : Int
deriving DecidableEq

/-- The database: the two relations plus the serial-id counter for `POST`. -/
structure Db where
  posts : List Post
  post_infos : List PostInfo
  next_id : Int
deriving DecidableEq

/-- `VkPostStats` from `src/models.rs`: the four `u64` counters returned by
the VK fetch, modelled as `Nat`. Field order follows the source. -/
structure VkPostStats where
  comments_count : Nat
  likes_count : Nat
  views_count : Nat
  reposts_count : Nat
deriving DecidableEq

/-- `PostDetails` from `src/models.rs`. -/
structure PostDetails where
  id : Int
  vk_id : String
  dt_parse_begin : Int
  dt_parse_end : Int
deriving DecidableEq

/-- `SELECT ... FROM POST WHERE id = $1` (first matching row). -/
def findPost (db : Db) (pid : Int) : Option Post :=
  db.posts.find? (fun p => p.id == pid)

/-- `is_ready_to_finish` from `src/db_commands.rs`:
`CURRENT_TIMESTAMP > dt_parse_end` for the row with the given id;
a missing row yields `true` (the `None => Ok(true)` arm). -/
def is_ready_to_finish (db : Db) (now : Int) (pid : Int) : Bool :=
  match findPost db pid with
  | some p => decide (now > p.dt_parse_end)
  | none => true

/-- `get_vk_id_by_post_id` from `src/db_commands.rs`. -/
def get_vk_id_by_post_id (db : Db) (pid : Int) : Option String :=
  (findPost db pid).map (fun p => p.vk_id)

/-- `save_post_info` from `src/db_commands.rs`: insert one `POST_INFO` row
with `info_time = CURRENT_TIMESTAMP`. -/
def save_post_info (db : Db) (now pid likes comments reposts views : Int) : Db :=
  { db with post_infos := db.post_infos ++ [⟨pid, likes, comments, reposts, views, now⟩] }

/-- `has_recent_post_info` from `src/db_commands.rs`: the SQL tests
`info_time > CURRENT_TIMESTAMP - (2 * $2 * INTERVAL '1 second')`, i.e. the
factor 2 is applied to the `seconds` argument inside this function. -/
def has_recent_post_info (db : Db) (now : Int) (pid : Int) (seconds : Int) : Bool :=
  db.post_infos.any (fun pi => pi.post_id == pid && decide (pi.info_time > now - 2 * seconds))

/-- `get_posts_needing_polling` from `src/db_commands.rs`: open posts
(`dt_parse_end > CURRENT_TIMESTAMP`) with no `POST_INFO` row newer than
`now - 2 * delta`. -/
def get_posts_needing_polling (db : Db) (now delta : Int) : List (Int × String) :=
  (db.posts.filter (fun p =>
    decide (p.dt_parse_end > now) &&
    !(db.post_infos.any (fun pi =>
        pi.post_id == p.id && decide (pi.info_time > now - 2 * delta))))).map
    (fun p => (p.id, p.vk_id))

/-- The `SELECT ... FOR UPDATE` of `get_or_create_post_with_prolong`:
first `POST` row for `vk_id` whose `tsrange(dt_parse_begin, dt_parse_end)`
(a half-open range `[begin, end)` by PostgreSQL default) contains `now`. -/
def findOpenPost (db : Db) (now : Int) (vk : String) : Option Post :=
  db.posts.find? (fun p =>
    p.vk_id == vk && decide (p.dt_parse_begin ≤ now) && decide (now < p.dt_parse_end))

/-- `get_or_create_post_with_prolong` from `src/db_commands.rs`, as the
serial effect of one committed transaction at time `now`: re-read the open
row; if found and `prolong` set `dt_parse_end = now + period`; if found and
not `prolong` leave it; otherwise insert `[now, now + period]`. Returns the
`PostDetails` of the returned row and the database after commit. -/
def get_or_create_post_with_prolong (db : Db) (now : Int) (vk : String)
    (prolong : Bool) (period : Int) : PostDetails × Db :=
  match findOpenPost db now vk with
  | some p =>
    if prolong then
      (⟨p.id, p.vk_id, p.dt_parse_begin, now + period⟩,
       { db with posts := db.posts.map (fun q =>
           if q.id == p.id then { q with dt_parse_end := now + period } else q) })
    else
      (⟨p.id, p.vk_id, p.dt_parse_begin, p.dt_parse_end⟩, db)
  | none =>
    (⟨db.next_id, vk, now, now + period⟩,
     { db with posts := db.posts ++ [⟨db.next_id, vk, now, now + period⟩],
               next_id := db.next_id + 1 })

/-- Rust's `u64 as i32` cast: keep the low 32 bits and reinterpret them as
a two's-complement signed 32-bit integer. -/
def u64_as_i32 (n : Nat) : Int :=
  let m : Nat := n % 2 ^ 32
  if m < 2 ^ 31 then (m : Int) else (m : Int) - 2 ^ 32

/-- Observable effects of one `poll_post_stats` tick: whether
`scheduler.remove` was called, whether the VK fetch was issued, the
`POST_INFO` rows inserted, and the error returned (if any). -/
structure TickOutcome where
  removed : Bool
  fetched : Bool
  appended : List PostInfo
  err : Option String
deriving DecidableEq

/-- `poll_post_stats` from `src/tasks.rs`. The tick issues three separate
database operations; since other tasks may commit between them, the state
each one observes is passed separately: `s1` at the `is_ready_to_finish`
check, `s2` at the `get_vk_id_by_post_id` read, `s3` at the
`save_post_info` insert (a tick with no interleaved writers has
`s1 = s2 = s3`). `fetch` is the outcome of `call_vk`. Returns the tick's
observable effects and the final database. -/
def poll_post_stats (s1 s2 s3 : Db) (now : Int) (pid : Int)
    (fetch : Except String VkPostStats) : TickOutcome × Db :=
  if is_ready_to_finish s1 now pid then
    (⟨true, false, [], none⟩, s3)
  else
    match get_vk_id_by_post_id s2 pid with
    | none => (⟨false, false, [], some "Post not found"⟩, s3)
    | some _ =>
      match fetch with
      | .error e => (⟨false, true, [], some e⟩, s3)
      | .ok stats =>
        (⟨false, true,
          [⟨pid, u64_as_i32 stats.likes_count, u64_as_i32 stats.comments_count,
            u64_as_i32 stats.reposts_count, u64_as_i32 stats.views_count, now⟩], none⟩,
         save_post_info s3 now pid (u64_as_i32 stats.likes_count)
           (u64_as_i32 stats.comments_count) (u64_as_i32 stats.reposts_count)
           (u64_as_i32 stats.views_count))

/-- The scheduling loop of `init_all_tasks` from `src/tasks.rs`: for each
enumerated post, build and register its cron job (`sched`, covering both
`Job::new_async` and `scheduler.add`, each applied with `?`). Returns the
ids successfully scheduled and the first error, if any; on an error the
loop aborts and the remaining posts are not processed. -/
def init_sched_loop (sched : Int → Except String Unit) :
    List (Int × String) → List Int × Option String
  | [] => ([], none)
  | (pid, _) :: rest =>
    match sched pid with
    | .error e => ([], some e)
    | .ok _ =>
      let r := init_sched_loop sched rest
      (pid :: r.1, r.2)

/-- `init_all_tasks` from `src/tasks.rs`: enumerate the posts needing
polling, then run the scheduling loop over them. -/
def init_all_tasks (db : Db) (now delta : Int) (sched : Int → Except String Unit) :
    List Int × Option String :=
  init_sched_loop sched (get_posts_needing_polling db now delta)

/-- Outcome of the `rocket()` startup sequence in `src/main.rs`. -/
inductive StartOutcome
  | panicked
  | serving
deriving DecidableEq

/-- The `rocket()` launch function from `src/main.rs`, stage by stage:
pool creation, migrations, scheduler construction and start are each
`expect`/`panic!` on failure; the `init_all_tasks` result is only matched
with `if let Err(e)` and logged, after which the server is built and
mounted regardless. -/
def rocket_startup (poolRes migrateRes schedNewRes schedStartRes : Except String Unit)
    (initRes : Except String Unit) : StartOutcome :=
  match poolRes with
  | .error _ => .panicked
  | .ok _ =>
    match migrateRes with
    | .error _ => .panicked
    | .ok _ =>
      match schedNewRes with
      | .error _ => .panicked
      | .ok _ =>
        match schedStartRes with
        | .error _ => .panicked
        | .ok _ =>
          match initRes with
          | .error _ => .serving
          | .ok _ => .serving

/-- The URL base stripped from `vk_link` in `post_polling`. -/
def urlBase : String := "https://vk.com/wall"

/-- The `strip_prefix("https://vk.com/wall")` step of `post_polling`,
on the character sequences of the strings: if the link starts with the
base, return the remainder, else fail. -/
def extract_vk_id (link : String) : Option String :=
  if urlBase.data.isPrefixOf link.data then some ⟨link.data.drop urlBase.data.length⟩
  else none

/-- `is_post_stats_empty` from `src/utils.rs`. -/
def is_post_stats_empty (stats : VkPostStats) : Bool :=
  stats.likes_count == 0 && stats.comments_count == 0 &&
  stats.reposts_count == 0 && stats.views_count == 0

/-- The scheduling gate of `post_polling` (`if !has_recent { ... }` in
`src/endpoints.rs`, with `has_recent = has_recent_post_info(...)`):
a new recurring job is created exactly when this is `true`. -/
def shouldSchedule (db : Db) (now : Int) (pid : Int) (delta : Int) : Bool :=
  !(has_recent_post_info db now pid delta)

/-- The response body built by `post_polling` (timestamp formatting kept
as the raw numbers). -/
structure PollingResponseM where
  scrapper_id : Int
  vk_id : String
  dt_parse_begin : Int
  dt_parse_end : Int
deriving DecidableEq

/-- Outcome of one `post_polling` request: the HTTP-level result, the
database after the request, and whether a job was registered. -/
structure PollingOutcome where
  result : Except String PollingResponseM
  db : Db
  scheduled : Bool

/-- `true` on the `Err` constructor. -/
def isErr {α : Type} (r : Except String α) : Bool :=
  match r with
  | .error _ => true
  | .ok _ => false

/-- `post_polling` from `src/endpoints.rs`: strip the link, call VK
(`callVk` oracle), reject empty stats, run the create/extend transaction
(committed at that point), query recency, and if no recent sample build
(`jobCreate` oracle) and register (`schedAdd` oracle) the cron job. Every
error path after the transaction returns the committed state. -/
def post_polling (db : Db) (now : Int) (link : String) (prolong : Bool)
    (callVk : Except String VkPostStats) (delta period : Int)
    (jobCreate schedAdd : Except String Unit) : PollingOutcome :=
  match extract_vk_id link with
  | none => ⟨.error "Invalid VK link format", db, false⟩
  | some vk_id =>
    match callVk with
    | .error e => ⟨.error e, db, false⟩
    | .ok stats =>
      if is_post_stats_empty stats then ⟨.error "Post not found in VK", db, false⟩
      else
        let pr := get_or_create_post_with_prolong db now vk_id prolong period
        if !(has_recent_post_info pr.2 now pr.1.id delta) then
          match jobCreate with
          | .error _ => ⟨.error "Failed to create job", pr.2, false⟩
          | .ok _ =>
            match schedAdd with
            | .error _ => ⟨.error "Failed to add job", pr.2, false⟩
            | .ok _ => ⟨.ok ⟨pr.1.id, pr.1.vk_id, pr.1.dt_parse_begin, pr.1.dt_parse_end⟩, pr.2, true⟩
        else ⟨.ok ⟨pr.1.id, pr.1.vk_id, pr.1.dt_parse_begin, pr.1.dt_parse_end⟩, pr.2, false⟩

/-- `hasRecentSample` as the specification words it: some sample of the
window has `capturedAt > now - sinceSeconds` (no factor 2). Stated from
the spec, for comparison with `has_recent_post_info`. -/
def hasRecentSample_spec (db : Db) (now : Int) (pid : Int) (seconds : Int) : Bool :=
  db.post_infos.any (fun pi => pi.post_id == pid && decide (pi.info_time > now - seconds))

/-! ## Helper lemmas -/

/-- Characterization of `has_recent_post_info` as an existential over the
`POST_INFO` rows. -/
lemma has_recent_post_info_iff_aux (db : Db) (now pid seconds : Int) :
    has_recent_post_info db now pid seconds = true ↔
      ∃ pi ∈ db.post_infos, pi.post_id = pid ∧ pi.info_time > now - 2 * seconds := by
  simp [has_recent_post_info, List.any_eq_true, Bool.and_eq_true, beq_iff_eq,
    decide_eq_true_eq]

/-- If every entry of the prefix schedules fine and the next entry fails,
the scheduling loop returns exactly the prefix ids and the error; the
remaining entries are not processed. -/
lemma init_sched_loop_append_fail (sched : Int → Except String Unit)
    (pre rest : List (Int × String)) (pid : Int) (nm e : String)
    (hpre : ∀ q ∈ pre, sched q.1 = Except.ok ())
    (hfail : sched pid = Except.error e) :
    init_sched_loop sched (pre ++ (pid, nm) :: rest) = (pre.map Prod.fst, some e) := by
  induction pre with
  | nil => simp [init_sched_loop, hfail]
  | cons q qs ih =>
    obtain ⟨qid, qnm⟩ := q
    have hq : sched qid = Except.ok () := hpre (qid, qnm) (by simp)
    have hrec := ih (fun r hr => hpre r (by simp [hr]))
    simp [init_sched_loop, hq, hrec]

/-- The `u64 as i32` cast is the identity below `2 ^ 31`. -/
lemma u64_as_i32_of_lt (n : Nat) (h : n < 2 ^ 31) : u64_as_i32 n = (n : Int) := by
  have h32 : n < 2 ^ 32 := lt_trans h (by norm_num)
  simp only [u64_as_i32]
  rw [Nat.mod_eq_of_lt h32, if_pos h]

/-! ## Claims -/

/-- C2, counterexample: `has_recent_post_info` applies the factor 2 inside,
so with `now = 100`, `sinceSeconds = 10` and a single sample captured at 85
it returns `true`, while the spec's predicate (`capturedAt > now -
sinceSeconds`) is false for that sample. -/
theorem c2_counterexample :
    has_recent_post_info ⟨[], [⟨1, 0, 0, 0, 0, 85⟩], 1⟩ 100 1 10 = true ∧
    hasRecentSample_spec ⟨[], [⟨1, 0, 0, 0, 0, 85⟩], 1⟩ 100 1 10 = false := by
  decide

/-- C2, amended: `has_recent_post_info db now pid sinceSeconds` returns
`true` if and only if some sample of that window has
`capturedAt > now - 2 * sinceSeconds`. -/
theorem c2_has_recent_iff_doubled (db : Db) (now pid seconds : Int) :
    has_recent_post_info db now pid seconds = true ↔
      ∃ pi ∈ db.post_infos, pi.post_id = pid ∧ pi.info_time > now - 2 * seconds :=
  has_recent_post_info_iff_aux db now pid seconds

/-- C4, counterexample: with pool, migrations and scheduler construction
all succeeding but the Reconciler enumeration failing, startup still ends
in `serving` (and not in `panicked`), so the failure is not fatal. -/
theorem c4_counterexample :
    rocket_startup (.ok ()) (.ok ()) (.ok ()) (.ok ())
        (.error "window enumeration failed") = StartOutcome.serving ∧
    rocket_startup (.ok ()) (.ok ()) (.ok ()) (.ok ())
        (.error "window enumeration failed") ≠ StartOutcome.panicked := by
  decide

/-- C4, amended: a failure of the startup reconciliation (including a
failure to enumerate open windows) is only logged; for every reconciliation
outcome the process proceeds to serve requests. -/
theorem c4_startup_serves_despite_init_failure :
    ∀ initRes : Except String Unit,
      rocket_startup (.ok ()) (.ok ()) (.ok ()) (.ok ()) initRes = StartOutcome.serving := by
  intro r
  cases r <;> rfl

/-- C7: a tick whose expiry check sees either a missing window row or a
window with `now > dt_parse_end` performs no fetch, appends nothing, leaves
the database unchanged, and removes the job from the scheduler. -/
theorem c7_expired_tick_terminates (s1 s2 s3 : Db) (now pid : Int)
    (fetch : Except String VkPostStats)
    (h : findPost s1 pid = none ∨ ∃ p, findPost s1 pid = some p ∧ now > p.dt_parse_end) :
    (poll_post_stats s1 s2 s3 now pid fetch).1.removed = true ∧
    (poll_post_stats s1 s2 s3 now pid fetch).1.fetched = false ∧
    (poll_post_stats s1 s2 s3 now pid fetch).1.appended = [] ∧
    (poll_post_stats s1 s2 s3 now pid fetch).2 = s3 := by
  have hr : is_ready_to_finish s1 now pid = true := by
    rcases h with h | ⟨p, hp, hgt⟩
    · simp [is_ready_to_finish, h]
    · simp [is_ready_to_finish, hp, hgt]
  simp [poll_post_stats, hr]

/-- C7, witness: a concrete expired window (end 8, tick at 20). -/
theorem c7_witness :
    (poll_post_stats ⟨[⟨2, "c", 0, 8⟩], [], 3⟩ ⟨[⟨2, "c", 0, 8⟩], [], 3⟩
        ⟨[⟨2, "c", 0, 8⟩], [], 3⟩ 20 2 (.ok ⟨5, 5, 5, 5⟩)).1.removed = true ∧
    (poll_post_stats ⟨[⟨2, "c", 0, 8⟩], [], 3⟩ ⟨[⟨2, "c", 0, 8⟩], [], 3⟩
        ⟨[⟨2, "c", 0, 8⟩], [], 3⟩ 20 2 (.ok ⟨5, 5, 5, 5⟩)).1.fetched = false ∧
    (poll_post_stats ⟨[⟨2, "c", 0, 8⟩], [], 3⟩ ⟨[⟨2, "c", 0, 8⟩], [], 3⟩
        ⟨[⟨2, "c", 0, 8⟩], [], 3⟩ 20 2 (.ok ⟨5, 5, 5, 5⟩)).1.appended = [] ∧
    (poll_post_stats ⟨[⟨2, "c", 0, 8⟩], [], 3⟩ ⟨[⟨2, "c", 0, 8⟩], [], 3⟩
        ⟨[⟨2, "c", 0, 8⟩], [], 3⟩ 20 2 (.ok ⟨5, 5, 5, 5⟩)).2 = ⟨[⟨2, "c", 0, 8⟩], [], 3⟩ :=
  c7_expired_tick_terminates _ _ _ 20 2 _ (Or.inr ⟨⟨2, "c", 0, 8⟩, by decide, by decide⟩)

/-- C8: when an open window exists for the resource, the prolong path sets
the returned window's end to `now + period`, keeps its start, and returns
the same window id. -/
theorem c8_prolong_sets_end_now_plus_period (db : Db) (now period : Int) (vk : String)
    (p : Post) (h : findOpenPost db now vk = some p) :
    (get_or_create_post_with_prolong db now vk true period).1.dt_parse_end = now + period ∧
    (get_or_create_post_with_prolong db now vk true period).1.dt_parse_begin =
      p.dt_parse_begin ∧
    (get_or_create_post_with_prolong db now vk true period).1.id = p.id := by
  simp [get_or_create_post_with_prolong, h]

/-- C8, witness: create at `t0 = 0` with period 300 (end 300), extend at
`t0 + 10` with period 300: the end becomes 310 (not 600), the start stays
0 and the id is unchanged. -/
theorem c8_witness :
    (get_or_create_post_with_prolong
        (get_or_create_post_with_prolong ⟨[], [], 1⟩ 0 "w" false 300).2
        10 "w" true 300).1.dt_parse_end = 310 ∧
    (get_or_create_post_with_prolong
        (get_or_create_post_with_prolong ⟨[], [], 1⟩ 0 "w" false 300).2
        10 "w" true 300).1.dt_parse_begin = 0 ∧
    (get_or_create_post_with_prolong
        (get_or_create_post_with_prolong ⟨[], [], 1⟩ 0 "w" false 300).2
        10 "w" true 300).1.id = 1 := by
  exact c8_prolong_sets_end_now_plus_period _ 10 300 "w" ⟨1, "w", 0, 300⟩ (by decide)

/-- C3: a validated open/extend request (link parses, VK call succeeds with
non-empty stats, job construction and registration succeed) registers a new
recurring job exactly when the gate `shouldSchedule` holds on the committed
state; the gate holds iff the window has no sample with
`capturedAt > now - 2 * pollInterval`; it is false immediately after a
sample append at `now`, and true whenever every sample of the window is at
least `2 * pollInterval` old. -/
theorem c3_gate_schedules_iff (db : Db) (now delta period : Int) (link v : String)
    (prolong : Bool) (stats : VkPostStats)
    (hlink : extract_vk_id link = some v)
    (hstats : is_post_stats_empty stats = false)
    (hdelta : 0 < delta) :
    ((post_polling db now link prolong (.ok stats) delta period
        (.ok ()) (.ok ())).scheduled =
      shouldSchedule (get_or_create_post_with_prolong db now v prolong period).2 now
        (get_or_create_post_with_prolong db now v prolong period).1.id delta) ∧
    (∀ (db2 : Db) (pid : Int),
      shouldSchedule db2 now pid delta = true ↔
        ¬ ∃ pi ∈ db2.post_infos, pi.post_id = pid ∧ pi.info_time > now - 2 * delta) ∧
    (∀ (db2 : Db) (pid l c r w : Int),
      shouldSchedule (save_post_info db2 now pid l c r w) now pid delta = false) ∧
    (∀ (db2 : Db) (pid : Int),
      (∀ pi ∈ db2.post_infos, pi.post_id = pid → pi.info_time ≤ now - 2 * delta) →
        shouldSchedule db2 now pid delta = true) := by
  refine ⟨?_, ?_, ?_, ?_⟩
  · cases hgate : has_recent_post_info
        (get_or_create_post_with_prolong db now v prolong period).2 now
        (get_or_create_post_with_prolong db now v prolong period).1.id delta <;>
      simp [post_polling, hlink, hstats, shouldSchedule, hgate]
  · intro db2 pid
    rw [shouldSchedule, Bool.not_eq_true', ← Bool.not_eq_true,
      has_recent_post_info_iff_aux]
  · intro db2 pid l c r w
    have hmem : has_recent_post_info (save_post_info db2 now pid l c r w) now pid delta
        = true := by
      rw [has_recent_post_info_iff_aux]
      refine ⟨⟨pid, l, c, r, w, now⟩, by simp [save_post_info], rfl, ?_⟩
      show now > now - 2 * delta
      omega
    simp [shouldSchedule, hmem]
  · intro db2 pid hold
    have hno : has_recent_post_info db2 now pid delta = false := by
      rw [← Bool.not_eq_true, has_recent_post_info_iff_aux]
      rintro ⟨pi, hmem, heq, hgt⟩
      exact absurd hgt (not_lt.mpr (hold pi hmem heq))
    simp [shouldSchedule, hno]

/-- C3, witness: instantiated at an empty database, `now = 0`,
`delta = 30`, `period = 300`, a valid link and non-empty stats. -/
theorem c3_witness :
    ((post_polling ⟨[], [], 1⟩ 0 "https://vk.com/wall-1_2" false (.ok ⟨1, 1, 1, 1⟩) 30 300
        (.ok ()) (.ok ())).scheduled =
      shouldSchedule (get_or_create_post_with_prolong ⟨[], [], 1⟩ 0 "-1_2" false 300).2 0
        (get_or_create_post_with_prolong ⟨[], [], 1⟩ 0 "-1_2" false 300).1.id 30) ∧
    (∀ (db2 : Db) (pid : Int),
      shouldSchedule db2 0 pid 30 = true ↔
        ¬ ∃ pi ∈ db2.post_infos, pi.post_id = pid ∧ pi.info_time > 0 - 2 * 30) ∧
    (∀ (db2 : Db) (pid l c r w : Int),
      shouldSchedule (save_post_info db2 0 pid l c r w) 0 pid 30 = false) ∧
    (∀ (db2 : Db) (pid : Int),
      (∀ pi ∈ db2.post_infos, pi.post_id = pid → pi.info_time ≤ 0 - 2 * 30) →
        shouldSchedule db2 0 pid 30 = true) :=
  c3_gate_schedules_iff ⟨[], [], 1⟩ 0 30 300 "https://vk.com/wall-1_2" "-1_2" false
    ⟨1, 1, 1, 1⟩ (by decide) (by decide) (by decide)

/-- C5, counterexample: two open windows both needing polling; scheduling
fails for the first one. The reconciliation returns the error with no
window scheduled — in particular the remaining window (id 2), which the
all-success run does schedule, is skipped, so reconciliation of the
remaining windows does not proceed. -/
theorem c5_counterexample :
    (init_all_tasks ⟨[⟨1, "a", 0, 100⟩, ⟨2, "b", 0, 100⟩], [], 3⟩ 10 30
        (fun pid => if pid == 1 then .error "boom" else .ok ())).2 = some "boom" ∧
    2 ∉ (init_all_tasks ⟨[⟨1, "a", 0, 100⟩, ⟨2, "b", 0, 100⟩], [], 3⟩ 10 30
        (fun pid => if pid == 1 then .error "boom" else .ok ())).1 ∧
    (init_all_tasks ⟨[⟨1, "a", 0, 100⟩, ⟨2, "b", 0, 100⟩], [], 3⟩ 10 30
        (fun _ => .ok ())).1 = [1, 2] := by
  decide

/-- C5, amended: a failure to schedule one enumerated window aborts the
reconciliation loop: exactly the windows before the failing one are
scheduled, the error is returned to the caller (which logs it), and the
windows after the failing one are not scheduled. -/
theorem c5_sched_failure_aborts (db : Db) (now delta : Int)
    (sched : Int → Except String Unit)
    (pre rest : List (Int × String)) (pid : Int) (nm e : String)
    (henum : get_posts_needing_polling db now delta = pre ++ (pid, nm) :: rest)
    (hpre : ∀ q ∈ pre, sched q.1 = Except.ok ())
    (hfail : sched pid = Except.error e) :
    init_all_tasks db now delta sched = (pre.map Prod.fst, some e) := by
  rw [init_all_tasks, henum]
  exact init_sched_loop_append_fail sched pre rest pid nm e hpre hfail

/-- C5, witness: two open windows; scheduling succeeds for the first and
fails for the second, so only the first is scheduled. -/
theorem c5_witness :
    init_all_tasks ⟨[⟨7, "x", 0, 50⟩, ⟨8, "y", 0, 50⟩], [], 9⟩ 5 2
        (fun pid => if pid == 8 then .error "sched down" else .ok ()) =
      ([7], some "sched down") :=
  c5_sched_failure_aborts ⟨[⟨7, "x", 0, 50⟩, ⟨8, "y", 0, 50⟩], [], 9⟩ 5 2
    (fun pid => if pid == 8 then .error "sched down" else .ok ())
    [(7, "x")] [] 8 "y" "sched down" (by decide)
    (by intro q hq; simp only [List.mem_singleton] at hq; subst hq; rfl) rfl

/-- C6, counterexample: the expiry check passes on a state where the window
exists, but the window row is gone when the tick resolves the `vk_id`. The
tick is not treated like expiry: the scheduler-removal call is not made
(the job stays scheduled) and the tick instead fails with the logged
"Post not found" error. -/
theorem c6_counterexample :
    (poll_post_stats ⟨[⟨1, "a", 0, 100⟩], [], 2⟩ ⟨[], [], 2⟩ ⟨[], [], 2⟩ 10 1
        (.ok ⟨1, 1, 1, 1⟩)).1.removed = false ∧
    (poll_post_stats ⟨[⟨1, "a", 0, 100⟩], [], 2⟩ ⟨[], [], 2⟩ ⟨[], [], 2⟩ 10 1
        (.ok ⟨1, 1, 1, 1⟩)).1.err = some "Post not found" := by
  decide

/-- C6, amended: when the expiry check passes but the window row is gone at
the `vk_id` resolution, the tick returns the "Post not found" error (which
the job closure logs), performs no fetch and no append, and does not
deregister the job — the job stays scheduled; any later tick that sees the
row still missing terminates it through the expiry check's missing-row
default. -/
theorem c6_missing_row_keeps_job (s1 s2 s3 : Db) (now pid : Int)
    (fetch : Except String VkPostStats)
    (h1 : is_ready_to_finish s1 now pid = false)
    (h2 : findPost s2 pid = none) :
    ((poll_post_stats s1 s2 s3 now pid fetch).1.removed = false ∧
     (poll_post_stats s1 s2 s3 now pid fetch).1.err = some "Post not found" ∧
     (poll_post_stats s1 s2 s3 now pid fetch).1.fetched = false ∧
     (poll_post_stats s1 s2 s3 now pid fetch).1.appended = [] ∧
     (poll_post_stats s1 s2 s3 now pid fetch).2 = s3) ∧
    (∀ (s2' s3' : Db) (now' : Int) (f' : Except String VkPostStats),
      (poll_post_stats s2 s2' s3' now' pid f').1.removed = true) := by
  constructor
  · simp [poll_post_stats, h1, get_vk_id_by_post_id, h2]
  · intro s2' s3' now' f'
    have hr : is_ready_to_finish s2 now' pid = true := by
      simp [is_ready_to_finish, h2]
    simp [poll_post_stats, hr]

/-- C6, witness: instantiated at a live window (id 4) in the check state
and an empty resolve state. -/
theorem c6_witness :
    (poll_post_stats ⟨[⟨4, "b", 0, 9⟩], [], 5⟩ ⟨[], [], 5⟩ ⟨[], [], 5⟩ 3 4
        (.error "net")).1.removed = false ∧
    (poll_post_stats ⟨[⟨4, "b", 0, 9⟩], [], 5⟩ ⟨[], [], 5⟩ ⟨[], [], 5⟩ 3 4
        (.error "net")).1.err = some "Post not found" ∧
    (∀ (s2' s3' : Db) (now' : Int) (f' : Except String VkPostStats),
      (poll_post_stats ⟨[], [], 5⟩ s2' s3' now' 4 f').1.removed = true) :=
  ⟨(c6_missing_row_keeps_job ⟨[⟨4, "b", 0, 9⟩], [], 5⟩ ⟨[], [], 5⟩ ⟨[], [], 5⟩ 3 4
      (.error "net") (by decide) (by decide)).1.1,
   (c6_missing_row_keeps_job ⟨[⟨4, "b", 0, 9⟩], [], 5⟩ ⟨[], [], 5⟩ ⟨[], [], 5⟩ 3 4
      (.error "net") (by decide) (by decide)).1.2.1,
   (c6_missing_row_keeps_job ⟨[⟨4, "b", 0, 9⟩], [], 5⟩ ⟨[], [], 5⟩ ⟨[], [], 5⟩ 3 4
      (.error "net") (by decide) (by decide)).2⟩

/-- C9, counterexample: the tick stores each fetched `u64` counter through
a `as i32` cast. With a fetched likes count of `2 ^ 31` the persisted value
is `-2 ^ 31`: negative, and different from the fetched value. -/
theorem c9_counterexample :
    (poll_post_stats ⟨[⟨1, "a", 0, 100⟩], [], 2⟩ ⟨[⟨1, "a", 0, 100⟩], [], 2⟩
        ⟨[⟨1, "a", 0, 100⟩], [], 2⟩ 10 1 (.ok ⟨0, 2147483648, 0, 0⟩)).1.appended =
      [⟨1, -2147483648, 0, 0, 0, 10⟩] ∧
    (-2147483648 : Int) < 0 ∧ ((2147483648 : Int) ≠ -2147483648) := by
  decide

/-- C9, amended: the persisted counters are the fetched `u64` values
reduced modulo `2 ^ 32` and reinterpreted as signed 32-bit integers; when
every fetched counter is below `2 ^ 31` the persisted row carries exactly
the fetched values, all non-negative, and the final database is the
corresponding `save_post_info` insert. -/
theorem c9_persisted_counters (s1 s2 s3 : Db) (now pid : Int) (stats : VkPostStats)
    (h1 : is_ready_to_finish s1 now pid = false)
    (h2 : (findPost s2 pid).isSome = true)
    (hl : stats.likes_count < 2 ^ 31) (hc : stats.comments_count < 2 ^ 31)
    (hr : stats.reposts_count < 2 ^ 31) (hv : stats.views_count < 2 ^ 31) :
    (poll_post_stats s1 s2 s3 now pid (.ok stats)).1.appended =
      [⟨pid, (stats.likes_count : Int), (stats.comments_count : Int),
        (stats.reposts_count : Int), (stats.views_count : Int), now⟩] ∧
    (poll_post_stats s1 s2 s3 now pid (.ok stats)).2 =
      save_post_info s3 now pid (stats.likes_count : Int) (stats.comments_count : Int)
        (stats.reposts_count : Int) (stats.views_count : Int) ∧
    (0 : Int) ≤ (stats.likes_count : Int) ∧ (0 : Int) ≤ (stats.comments_count : Int) ∧
    (0 : Int) ≤ (stats.reposts_count : Int) ∧ (0 : Int) ≤ (stats.views_count : Int) := by
  obtain ⟨p, hp⟩ := Option.isSome_iff_exists.mp h2
  have hres : get_vk_id_by_post_id s2 pid = some p.vk_id := by
    simp [get_vk_id_by_post_id, hp]
  refine ⟨?_, ?_, Int.ofNat_nonneg _, Int.ofNat_nonneg _, Int.ofNat_nonneg _,
    Int.ofNat_nonneg _⟩ <;>
    simp [poll_post_stats, h1, hres, u64_as_i32_of_lt _ hl, u64_as_i32_of_lt _ hc,
      u64_as_i32_of_lt _ hr, u64_as_i32_of_lt _ hv]

/-- C9, witness: a live window (id 6) polled at time 7 with small fetched
counters `comments = 2, likes = 3, views = 4, reposts = 5`. -/
theorem c9_witness :
    (poll_post_stats ⟨[⟨6, "z", 0, 100⟩], [], 7⟩ ⟨[⟨6, "z", 0, 100⟩], [], 7⟩
        ⟨[⟨6, "z", 0, 100⟩], [], 7⟩ 7 6 (.ok ⟨2, 3, 4, 5⟩)).1.appended =
      [⟨6, 3, 2, 5, 4, 7⟩] ∧
    (poll_post_stats ⟨[⟨6, "z", 0, 100⟩], [], 7⟩ ⟨[⟨6, "z", 0, 100⟩], [], 7⟩
        ⟨[⟨6, "z", 0, 100⟩], [], 7⟩ 7 6 (.ok ⟨2, 3, 4, 5⟩)).2 =
      save_post_info ⟨[⟨6, "z", 0, 100⟩], [], 7⟩ 7 6 3 2 5 4 ∧
    (0 : Int) ≤ 3 ∧ (0 : Int) ≤ 2 ∧ (0 : Int) ≤ 5 ∧ (0 : Int) ≤ 4 :=
  c9_persisted_counters ⟨[⟨6, "z", 0, 100⟩], [], 7⟩ ⟨[⟨6, "z", 0, 100⟩], [], 7⟩
    ⟨[⟨6, "z", 0, 100⟩], [], 7⟩ 7 6 ⟨2, 3, 4, 5⟩ (by decide) (by decide)
    (by norm_num) (by norm_num) (by norm_num) (by norm_num)

/-- C10: on a validated request whose dedup gate passes, a failure to build
the cron job or to register it with the scheduler yields an error response,
no job, and a final database equal to the state committed by
`get_or_create_post_with_prolong` — the committed create/extend is not
rolled back by the later failure. -/
theorem c10_commit_survives_job_failure (db : Db) (now delta period : Int)
    (link v : String) (prolong : Bool) (stats : VkPostStats) (e : String)
    (jobCreate schedAdd : Except String Unit)
    (hlink : extract_vk_id link = some v)
    (hstats : is_post_stats_empty stats = false)
    (hgate : has_recent_post_info (get_or_create_post_with_prolong db now v prolong period).2
        now (get_or_create_post_with_prolong db now v prolong period).1.id delta = false)
    (hfail : jobCreate = Except.error e ∨
      (jobCreate = Except.ok () ∧ schedAdd = Except.error e)) :
    isErr (post_polling db now link prolong (.ok stats) delta period
        jobCreate schedAdd).result = true ∧
    (post_polling db now link prolong (.ok stats) delta period jobCreate schedAdd).db =
      (get_or_create_post_with_prolong db now v prolong period).2 ∧
    (post_polling db now link prolong (.ok stats) delta period
        jobCreate schedAdd).scheduled = false := by
  rcases hfail with hj | ⟨hj, hs⟩
  · simp [post_polling, hlink, hstats, hgate, hj, isErr]
  · simp [post_polling, hlink, hstats, hgate, hj, hs, isErr]

/-- C10, witness: empty database, valid link, non-empty stats, gate open,
and a failing job construction: the request errors while the created
window's state persists. -/
theorem c10_witness :
    isErr (post_polling ⟨[], [], 1⟩ 0 "https://vk.com/wall-3_4" true (.ok ⟨1, 0, 0, 0⟩)
        30 300 (.error "no job") (.ok ())).result = true ∧
    (post_polling ⟨[], [], 1⟩ 0 "https://vk.com/wall-3_4" true (.ok ⟨1, 0, 0, 0⟩)
        30 300 (.error "no job") (.ok ())).db =
      (get_or_create_post_with_prolong ⟨[], [], 1⟩ 0 "-3_4" true 300).2 ∧
    (post_polling ⟨[], [], 1⟩ 0 "https://vk.com/wall-3_4" true (.ok ⟨1, 0, 0, 0⟩)
        30 300 (.error "no job") (.ok ())).scheduled = false :=
  c10_commit_survives_job_failure ⟨[], [], 1⟩ 0 30 300 "https://vk.com/wall-3_4" "-3_4"
    true ⟨1, 0, 0, 0⟩ "no job" (.error "no job") (.ok ())
    (by decide) (by decide) (by decide) (Or.inl rfl)
